import Mathlib

/-!
Verification of the VKVM software KVM switcher.

This file shallowly embeds the parts of the VKVM source relevant to the
checked claims:

* the binary UDP input-event codec (internal/protocol, EncodeUDPPacket /
  DecodeUDPPacket),
* the Host-side UDP sender with per-event redundancy
  (internal/network/udp_receiver.go, UDPSender.SendInput / broadcast),
* the Agent-side sequence-number dedup ring and UDP read loop
  (internal/network/udp_receiver.go, seqDedup.isDuplicate /
  UDPReceiver.readLoop),
* the profile switcher (internal/switcher, Switcher.SwitchToProfile /
  SwitchLocalOnly / switchToProfileInternal),
* the HTTP switch endpoint (internal/api/server.go, Server.handleSwitch),
* the WebSocket switch broadcast (internal/api/websocket.go,
  WSManager.BroadcastSwitch) and its wiring in cmd/main.go runService,
* the macOS input injector key translation table and modifier bitmask
  (internal/input/inject_darwin.go, Injector.InjectKey),
* the Agent input gate in cmd/main.go runService (wsClient.OnInput).

Go machine integers are modelled as Nat (unsigned) and Int (signed) with
explicit reductions modulo 2^w where the code truncates.  Byte slices are
modelled as List Nat with every element below 256.  Fallible operations
return Except or Option.
-/

namespace VKVM

/-! ## Wire codec (internal/protocol)

Big-endian byte serialisation mirroring Go encoding/binary. -/

/-- Big-endian 2-byte encoding of a Nat, as binary.BigEndian.PutUint16. -/
def be16 (n : Nat) : List Nat := [n / 2 ^ 8 % 256, n % 256]

/-- Big-endian 4-byte encoding of a Nat, as binary.BigEndian.PutUint32. -/
def be32 (n : Nat) : List Nat :=
  [n / 2 ^ 24 % 256, n / 2 ^ 16 % 256, n / 2 ^ 8 % 256, n % 256]

/-- Big-endian 8-byte encoding of a Nat, as binary.BigEndian.PutUint64. -/
def be64 (n : Nat) : List Nat :=
  [n / 2 ^ 56 % 256, n / 2 ^ 48 % 256, n / 2 ^ 40 % 256, n / 2 ^ 32 % 256,
   n / 2 ^ 24 % 256, n / 2 ^ 16 % 256, n / 2 ^ 8 % 256, n % 256]

/-- Big-endian 2-byte read, as binary.BigEndian.Uint16. -/
def rd16 (a b : Nat) : Nat := a * 2 ^ 8 + b

/-- Big-endian 4-byte read, as binary.BigEndian.Uint32. -/
def rd32 (a b c d : Nat) : Nat := ((a * 256 + b) * 256 + c) * 256 + d

/-- Big-endian 8-byte read, as binary.BigEndian.Uint64. -/
def rd64 (a b c d e f g h : Nat) : Nat := rd32 a b c d * 2 ^ 32 + rd32 e f g h

/-- Go uint32(x) conversion of an int32 value: reduction modulo 2^32. -/
def u32ofInt (x : Int) : Nat := (x % (2 ^ 32 : Int)).toNat

/-- Go int32(u) reinterpretation of a uint32 value. -/
def i32ofNat (n : Nat) : Int := if n < 2 ^ 31 then (n : Int) else (n : Int) - 2 ^ 32

/-- Go uint64(x) conversion of an int64 value: reduction modulo 2^64. -/
def u64ofInt (x : Int) : Nat := (x % (2 ^ 64 : Int)).toNat

/-- Go int64(u) reinterpretation of a uint64 value. -/
def i64ofNat (n : Nat) : Int := if n < 2 ^ 63 then (n : Int) else (n : Int) - 2 ^ 64

/-- UDP Packet type constants (internal/protocol). -/
def UDPPacketMouseMove : Nat := 0x01
def UDPPacketMouseButton : Nat := 0x02
def UDPPacketMouseScroll : Nat := 0x03
def UDPPacketKeyEvent : Nat := 0x04
def UDPPacketRegister : Nat := 0x10
def UDPPacketHeartbeat : Nat := 0x11
def UDPPacketAck : Nat := 0x12

/-- protocol.UDPPacket: binary-encoded input event for UDP transport.
Field names follow the Go struct (the Go field Type is spelled ptype
because Type is a sort in Lean). -/
structure UDPPacket where
  ptype : Nat
  seq : Nat
  timestamp : Int
  deltaX : Int := 0
  deltaY : Int := 0
  button : Nat := 0
  pressed : Nat := 0
  wheelDelta : Int := 0
  axis : Nat := 0
  keyCode : Nat := 0
  modifiers : Nat := 0
deriving DecidableEq

/-- protocol.EncodeUDPPacket: serialise a UDPPacket to wire format.
Header is type(1) + seq(4) + timestamp(8); the payload depends on the
type exactly as in the Go switch (unknown types encode header only). -/
def EncodeUDPPacket (pkt : UDPPacket) : List Nat :=
  let payload : List Nat :=
    if pkt.ptype = UDPPacketMouseMove then
      be32 (u32ofInt pkt.deltaX) ++ be32 (u32ofInt pkt.deltaY)
    else if pkt.ptype = UDPPacketMouseButton then
      [pkt.button, pkt.pressed]
    else if pkt.ptype = UDPPacketMouseScroll then
      be32 (u32ofInt pkt.wheelDelta) ++ [pkt.axis]
    else if pkt.ptype = UDPPacketKeyEvent then
      be16 pkt.keyCode ++ pkt.pressed :: be16 pkt.modifiers
    else []
  pkt.ptype :: (be32 pkt.seq ++ be64 (u64ofInt pkt.timestamp)) ++ payload

/-- protocol.DecodeUDPPacket: deserialise wire bytes into a UDPPacket.
Mirrors the Go function: less than 13 header bytes is an error, then the
payload is parsed by type with per-type length checks; Register, Heartbeat
and Ack carry no payload; unknown types are rejected.  Fields a variant
does not parse keep their Go zero values. -/
def DecodeUDPPacket (data : List Nat) : Except String UDPPacket :=
  match data with
  | t :: s1 :: s2 :: s3 :: s4 :: m1 :: m2 :: m3 :: m4 :: m5 :: m6 :: m7 :: m8 :: payload =>
    let base : UDPPacket :=
      { ptype := t, seq := rd32 s1 s2 s3 s4,
        timestamp := i64ofNat (rd64 m1 m2 m3 m4 m5 m6 m7 m8) }
    if t = UDPPacketMouseMove then
      match payload with
      | p1 :: p2 :: p3 :: p4 :: p5 :: p6 :: p7 :: p8 :: _ =>
        .ok { base with deltaX := i32ofNat (rd32 p1 p2 p3 p4),
                        deltaY := i32ofNat (rd32 p5 p6 p7 p8) }
      | _ => .error "udp: mouse move payload too short"
    else if t = UDPPacketMouseButton then
      match payload with
      | p1 :: p2 :: _ => .ok { base with button := p1, pressed := p2 }
      | _ => .error "udp: mouse button payload too short"
    else if t = UDPPacketMouseScroll then
      match payload with
      | p1 :: p2 :: p3 :: p4 :: p5 :: _ =>
        .ok { base with wheelDelta := i32ofNat (rd32 p1 p2 p3 p4), axis := p5 }
      | _ => .error "udp: mouse scroll payload too short"
    else if t = UDPPacketKeyEvent then
      match payload with
      | p1 :: p2 :: p3 :: p4 :: p5 :: _ =>
        .ok { base with keyCode := rd16 p1 p2, pressed := p3, modifiers := rd16 p4 p5 }
      | _ => .error "udp: key event payload too short"
    else if t = UDPPacketRegister ∨ t = UDPPacketHeartbeat ∨ t = UDPPacketAck then
      .ok base
    else .error "udp: unknown packet type"
  | _ => .error "udp: packet too short"

/-- x fits in a Go int32. -/
def isI32 (x : Int) : Prop := -(2 ^ 31) ≤ x ∧ x < 2 ^ 31

/-- x fits in a Go int64. -/
def isI64 (x : Int) : Prop := -(2 ^ 63) ≤ x ∧ x < 2 ^ 63

instance (x : Int) : Decidable (isI32 x) := by unfold isI32; infer_instance
instance (x : Int) : Decidable (isI64 x) := by unfold isI64; infer_instance

/-- Well-formed packet of one of the seven wire variants, with every field
outside that variant's payload at its Go zero value, and every in-payload
field within the range of its Go machine type. -/
def wfUDPPacket (p : UDPPacket) : Prop :=
  p.seq < 2 ^ 32 ∧ isI64 p.timestamp ∧
  ((p.ptype = UDPPacketMouseMove ∧ isI32 p.deltaX ∧ isI32 p.deltaY ∧
      p.button = 0 ∧ p.pressed = 0 ∧ p.wheelDelta = 0 ∧ p.axis = 0 ∧
      p.keyCode = 0 ∧ p.modifiers = 0) ∨
   (p.ptype = UDPPacketMouseButton ∧ p.button < 2 ^ 8 ∧ p.pressed < 2 ^ 8 ∧
      p.deltaX = 0 ∧ p.deltaY = 0 ∧ p.wheelDelta = 0 ∧ p.axis = 0 ∧
      p.keyCode = 0 ∧ p.modifiers = 0) ∨
   (p.ptype = UDPPacketMouseScroll ∧ isI32 p.wheelDelta ∧ p.axis < 2 ^ 8 ∧
      p.deltaX = 0 ∧ p.deltaY = 0 ∧ p.button = 0 ∧ p.pressed = 0 ∧
      p.keyCode = 0 ∧ p.modifiers = 0) ∨
   (p.ptype = UDPPacketKeyEvent ∧ p.keyCode < 2 ^ 16 ∧ p.pressed < 2 ^ 8 ∧
      p.modifiers < 2 ^ 16 ∧ p.deltaX = 0 ∧ p.deltaY = 0 ∧ p.button = 0 ∧
      p.wheelDelta = 0 ∧ p.axis = 0) ∨
   ((p.ptype = UDPPacketRegister ∨ p.ptype = UDPPacketHeartbeat ∨
       p.ptype = UDPPacketAck) ∧
      p.deltaX = 0 ∧ p.deltaY = 0 ∧ p.button = 0 ∧ p.pressed = 0 ∧
      p.wheelDelta = 0 ∧ p.axis = 0 ∧ p.keyCode = 0 ∧ p.modifiers = 0))

instance (p : UDPPacket) : Decidable (wfUDPPacket p) := by
  unfold wfUDPPacket; infer_instance

lemma u32ofInt_lt (x : Int) : u32ofInt x < 2 ^ 32 := by
  unfold u32ofInt; omega

lemma u64ofInt_lt (x : Int) : u64ofInt x < 2 ^ 64 := by
  unfold u64ofInt; omega

lemma rd32_be32 (n : Nat) (h : n < 2 ^ 32) :
    rd32 (n / 2 ^ 24 % 256) (n / 2 ^ 16 % 256) (n / 2 ^ 8 % 256) (n % 256) = n := by
  unfold rd32; omega

lemma rd64_be64 (n : Nat) (h : n < 2 ^ 64) :
    rd64 (n / 2 ^ 56 % 256) (n / 2 ^ 48 % 256) (n / 2 ^ 40 % 256) (n / 2 ^ 32 % 256)
      (n / 2 ^ 24 % 256) (n / 2 ^ 16 % 256) (n / 2 ^ 8 % 256) (n % 256) = n := by
  unfold rd64 rd32; omega

lemma rd16_be16 (n : Nat) (h : n < 2 ^ 16) :
    rd16 (n / 2 ^ 8 % 256) (n % 256) = n := by
  unfold rd16; omega

lemma i32_roundtrip (x : Int) (h1 : -(2 ^ 31) ≤ x) (h2 : x < 2 ^ 31) :
    i32ofNat (u32ofInt x) = x := by
  unfold i32ofNat u32ofInt
  split <;> omega

lemma i64_roundtrip (x : Int) (h1 : -(2 ^ 63) ≤ x) (h2 : x < 2 ^ 63) :
    i64ofNat (u64ofInt x) = x := by
  unfold i64ofNat u64ofInt
  split <;> omega

/-! ## Host-side UDP sender (internal/network, UDPSender)

UDPSender.SendInput encodes an input event and broadcasts it to every
registered agent, repeated `redundancy` times per agent.  Agents are
modelled by their address keys (the Go map agents); the network is
modelled by the list of (agent, datagram) writes issued. -/

/-- The packet and redundancy UDPSender.SendInput builds for an event, or
none for an unknown event type (the Go default: return).  Mirrors the Go
switch including the redundancy assignments. -/
def sendInputPacket (eventType : String) (deltaX deltaY : Int) (button : Nat)
    (pressed : Bool) (keyCode modifiers : Nat) (wheelDelta : Int)
    (timestamp : Int) (seq : Nat) : Option (UDPPacket × Nat) :=
  let base : UDPPacket := { ptype := 0, seq := seq, timestamp := timestamp }
  if eventType = "mouse_move" then
    some ({ base with ptype := UDPPacketMouseMove, deltaX := deltaX, deltaY := deltaY }, 1)
  else if eventType = "mouse_btn" then
    some ({ base with ptype := UDPPacketMouseButton, button := button,
                      pressed := if pressed then 1 else 0 }, 3)
  else if eventType = "mouse_wheel" then
    some ({ base with ptype := UDPPacketMouseScroll, wheelDelta := wheelDelta, axis := 0 }, 2)
  else if eventType = "mouse_wheel_h" then
    some ({ base with ptype := UDPPacketMouseScroll, wheelDelta := wheelDelta, axis := 1 }, 2)
  else if eventType = "key" then
    some ({ base with ptype := UDPPacketKeyEvent, keyCode := keyCode,
                      pressed := if pressed then 1 else 0, modifiers := modifiers }, 3)
  else none

/-- UDPSender.broadcast: write `data` to every registered agent,
`redundancy` times each.  The result is the list of (agent, datagram)
socket writes in issue order. -/
def broadcast (agents : List String) (data : List Nat) (redundancy : Nat) :
    List (String × List Nat) :=
  agents.flatMap fun a => List.replicate redundancy (a, data)

/-- UDPSender.SendInput: encode the event as a binary UDP packet and send
it to all registered agents (with per-type redundancy). -/
def SendInput (agents : List String) (eventType : String) (deltaX deltaY : Int)
    (button : Nat) (pressed : Bool) (keyCode modifiers : Nat) (wheelDelta : Int)
    (timestamp : Int) (seq : Nat) : List (String × List Nat) :=
  match sendInputPacket eventType deltaX deltaY button pressed keyCode modifiers
      wheelDelta timestamp seq with
  | none => []
  | some (pkt, redundancy) => broadcast agents (EncodeUDPPacket pkt) redundancy

/-- The copy count the specification promises per event type: 1 for a
mouse move, 2 for a scroll (either axis), 3 for a mouse button or key.
Written from the spec sentence, to be compared with the code. -/
def specCopyCount (eventType : String) : Nat :=
  if eventType = "mouse_move" then 1
  else if eventType = "mouse_wheel" ∨ eventType = "mouse_wheel_h" then 2
  else 3

/-! ## Agent-side dedup and UDP read loop (internal/network, UDPReceiver)

seqDedup tracks recently seen sequence numbers in a 512-slot ring plus a
seen-set; the Go map seen is modelled as a list of its keys. -/

/-- network.seqDedup: ring of the last 512 inserted seqs (slot 0 unused
marker is the value 0), write position, and the seen-set. -/
structure SeqDedup where
  ring : List Nat
  pos : Nat
  seen : List Nat
deriving DecidableEq

/-- network.newSeqDedup: zeroed ring of 512 slots, empty seen-set. -/
def newSeqDedup : SeqDedup := { ring := List.replicate 512 0, pos := 0, seen := [] }

/-- seqDedup.isDuplicate: true (state unchanged) when seq is in the
seen-set; otherwise evict the ring slot at pos (skipping zero-valued
slots), record seq in the ring and seen-set, advance pos, and report
false.  Returns (duplicate?, updated state). -/
def isDuplicate (d : SeqDedup) (seq : Nat) : Bool × SeqDedup :=
  if seq ∈ d.seen then (true, d)
  else
    let old := d.ring.getD d.pos 0
    let seen1 := if old ≠ 0 then d.seen.erase old else d.seen
    (false,
      { ring := d.ring.set d.pos seq,
        pos := (d.pos + 1) % d.ring.length,
        seen := seq :: seen1 })

/-- Run a sequence of isDuplicate insertions, keeping only the state. -/
def runDedup (d : SeqDedup) (seqs : List Nat) : SeqDedup :=
  seqs.foldl (fun st s => (isDuplicate st s).2) d

/-- UDPReceiver.readLoop, one datagram: decode (silently skipping
malformed data), dedup every type except Register and Heartbeat, and
dispatch survivors.  Returns the updated dedup state and the packet
passed to dispatch, if any. -/
def readLoopStep (d : SeqDedup) (data : List Nat) : SeqDedup × Option UDPPacket :=
  match DecodeUDPPacket data with
  | .error _ => (d, none)
  | .ok pkt =>
    if pkt.ptype ≠ UDPPacketRegister ∧ pkt.ptype ≠ UDPPacketHeartbeat then
      let r := isDuplicate d pkt.seq
      if r.1 then (r.2, none) else (r.2, some pkt)
    else (d, some pkt)

/-! ## Profile switcher (internal/switcher, unnamed/part_004)

Switcher.switchToProfileInternal with the DDC controller abstracted as an
oracle: activeIDs is the monitor list this machine detects, and
setInputSource says whether a VCP 0x60 write to a given monitor/input
fails (some errorMessage) or succeeds (none). -/

/-- config.Profile (the fields the switcher uses).  monitorInputs is the
Go map monitor_inputs, as an association list in iteration order. -/
structure Profile where
  name : String
  switchMode : String := ""
  monitorInputs : List (String × Nat) := []
  remoteHosts : List String := []
deriving DecidableEq

/-- The switcher environment: role/coordinator from config, detected
monitors, and the DDC write oracle (ddc.Controller.SetInputSource, which
writes VCP 0x60 with the requested input code). -/
structure SwitchEnv where
  role : String
  coordinatorAddr : String
  activeIDs : List String
  setInputSource : String → Nat → Option String

/-- The observable outcome of one switchToProfileInternal call. -/
structure SwitchOutcome where
  forwardedToHost : Bool
  attempts : List (String × Nat)
  savedCurrentProfile : Option String
  remoteNotifications : List (String × Bool)
  onSwitchFired : Option String
  result : Option String
deriving DecidableEq

/-- The local DDC loop of switchToProfileInternal: iterate the profile
monitor_inputs in order, skip monitors not detected on this machine,
write VCP 0x60 to the rest, and remember the last error (the Go lastErr).
Returns (writes attempted in order, lastErr). -/
def localSwitchLoop (env : SwitchEnv) (inputs : List (String × Nat)) :
    List (String × Nat) × Option String :=
  inputs.foldl
    (fun acc entry =>
      if entry.1 ∈ env.activeIDs then
        (acc.1 ++ [entry],
          match env.setInputSource entry.1 entry.2 with
          | some e => some e
          | none => acc.2)
      else acc)
    ([], none)

/-- Switcher.switchToProfileInternal: forward to the Host when running as
an Agent with a coordinator (allowForward), otherwise run the local DDC
writes when switch_mode allows (empty means both), persist
current_profile, notify remote hosts when the mode allows (propagate
false when this node is host), and fire onSwitch. -/
def switchToProfileInternal (env : SwitchEnv) (profile : Profile)
    (profileName : String) (allowForward : Bool) : SwitchOutcome :=
  if allowForward ∧ env.role = "agent" ∧ env.coordinatorAddr ≠ "" then
    { forwardedToHost := true, attempts := [], savedCurrentProfile := none,
      remoteNotifications := [(env.coordinatorAddr, true)],
      onSwitchFired := none, result := none }
  else
    let switchMode := if profile.switchMode = "" then "both" else profile.switchMode
    let localResult :=
      if switchMode = "local" ∨ switchMode = "both" then
        localSwitchLoop env profile.monitorInputs
      else ([], none)
    let remotes :=
      if allowForward ∧ (switchMode = "remote" ∨ switchMode = "both") ∧
          profile.remoteHosts.length > 0 then
        profile.remoteHosts.map fun rh => (rh, env.role != "host")
      else []
    { forwardedToHost := false, attempts := localResult.1,
      savedCurrentProfile := some profileName, remoteNotifications := remotes,
      onSwitchFired := some profileName, result := localResult.2 }

/-- config.Manager.GetProfile: first profile with the given name. -/
def GetProfile (profiles : List Profile) (name : String) : Option Profile :=
  profiles.find? fun p => p.name == name

/-- An outcome for a switch that failed before doing anything. -/
def failedSwitch (msg : String) : SwitchOutcome :=
  { forwardedToHost := false, attempts := [], savedCurrentProfile := none,
    remoteNotifications := [], onSwitchFired := none, result := some msg }

/-- Switcher.SwitchToProfile: resolve the profile by name (error if not
found), then switchToProfileInternal with allowForward = true. -/
def SwitchToProfile (env : SwitchEnv) (profiles : List Profile)
    (profileName : String) : SwitchOutcome :=
  match GetProfile profiles profileName with
  | none => failedSwitch ("profile not found: " ++ profileName)
  | some p => switchToProfileInternal env p profileName true

/-- Switcher.SwitchLocalOnly: as SwitchToProfile but with
allowForward = false (bypasses agent forwarding and host propagation). -/
def SwitchLocalOnly (env : SwitchEnv) (profiles : List Profile)
    (profileName : String) : SwitchOutcome :=
  match GetProfile profiles profileName with
  | none => failedSwitch ("profile not found: " ++ profileName)
  | some p => switchToProfileInternal env p profileName false

/-! ## HTTP switch endpoint (internal/api/server.go, handleSwitch) -/

/-- A minimal HTTP response: status code and body. -/
structure HttpResponse where
  status : Nat
  body : String
deriving DecidableEq

/-- Server.handleSwitch for POST /api/switch?profile=NAME&propagate=...:
non-POST is 405, a missing/empty profile parameter is 400, propagate is
true unless the parameter is the literal "false"; a switch error maps to
500 (http.StatusInternalServerError), success to 200. -/
def handleSwitch (env : SwitchEnv) (profiles : List Profile) (method : String)
    (profileParam : String) (propagateParam : String) : HttpResponse :=
  if method ≠ "POST" then { status := 405, body := "Method not allowed" }
  else if profileParam = "" then { status := 400, body := "Missing profile parameter" }
  else
    let propagate := propagateParam ≠ "false"
    let out :=
      if ¬propagate then SwitchLocalOnly env profiles profileParam
      else SwitchToProfile env profiles profileParam
    match out.result with
    | some e => { status := 500, body := e }
    | none => { status := 200, body := "ok" }

/-! ## WebSocket switch broadcast (internal/api/websocket.go) -/

/-- protocol.SwitchPayload. -/
structure SwitchPayload where
  profile : String
  origin : String
  propagate : Bool
deriving DecidableEq

/-- A control-channel message of type switch. -/
structure SwitchMessage where
  msgType : String
  payload : SwitchPayload
deriving DecidableEq

/-- WSManager.BroadcastSwitch: the switch message broadcast to every
connected agent.  The Go code sets Propagate: true (with the comment
"Tell receivers they should act on it"). -/
def BroadcastSwitch (profile origin : String) : SwitchMessage :=
  { msgType := "switch", payload := { profile := profile, origin := origin, propagate := true } }

/-- The onSwitch wiring in runService (cmd main): the switcher callback
broadcasts with origin "host". -/
def hostOnSwitch (profileName : String) : SwitchMessage :=
  BroadcastSwitch profileName "host"

/-! ## macOS input injector (internal/input/inject_darwin.go)

Injector.InjectKey translates Windows virtual-key codes to macOS
CGKeyCodes and tracks a 16-bit modifier bitmask (bit 0x01 Shift, 0x02
Control, 0x04 Alt, 0x08 Command). -/

/-- The windowsToMacKeyMap translation table, in the order of the Go map
literal.  Keys are Windows VK codes, values macOS CGKeyCodes. -/
def windowsToMacKeyMap : List (Nat × Nat) := [
  (0x41, 0x00), (0x42, 0x0B), (0x43, 0x08), (0x44, 0x02),
  (0x45, 0x0E), (0x46, 0x03), (0x47, 0x05), (0x48, 0x04),
  (0x49, 0x22), (0x4A, 0x26), (0x4B, 0x28), (0x4C, 0x25),
  (0x4D, 0x2E), (0x4E, 0x2D), (0x4F, 0x1F), (0x50, 0x23),
  (0x51, 0x0C), (0x52, 0x0F), (0x53, 0x01), (0x54, 0x11),
  (0x55, 0x20), (0x56, 0x09), (0x57, 0x0D), (0x58, 0x07),
  (0x59, 0x10), (0x5A, 0x06), (0x30, 0x1D), (0x31, 0x12),
  (0x32, 0x13), (0x33, 0x14), (0x34, 0x15), (0x35, 0x17),
  (0x36, 0x16), (0x37, 0x1A), (0x38, 0x1C), (0x39, 0x19),
  (0x70, 0x7A), (0x71, 0x78), (0x72, 0x63), (0x73, 0x76),
  (0x74, 0x60), (0x75, 0x61), (0x76, 0x62), (0x77, 0x64),
  (0x78, 0x65), (0x79, 0x6D), (0x7A, 0x67), (0x7B, 0x6F),
  (0x7C, 0x69), (0x7D, 0x6B), (0x7E, 0x71), (0x7F, 0x6A),
  (0x80, 0x40), (0x81, 0x4F), (0x82, 0x50), (0x83, 0x5A),
  (0x08, 0x33), (0x09, 0x30), (0x0D, 0x24), (0x10, 0x38),
  (0x11, 0x3B), (0x12, 0x3A), (0x13, 0x48), (0x14, 0x39),
  (0x1B, 0x35), (0x20, 0x31), (0x2C, 0x5D), (0x2D, 0x72),
  (0x2E, 0x75), (0x5D, 0x2F), (0x90, 0x47), (0x91, 0x57),
  (0xAD, 0x49), (0xAE, 0x4A), (0xAF, 0x48), (0xB0, 0x34),
  (0xB1, 0x31), (0xB2, 0x42), (0xB3, 0x43), (0xB4, 0x5E),
  (0xB5, 0x5C), (0x25, 0x7B), (0x26, 0x7E), (0x27, 0x7C),
  (0x28, 0x7D), (0x21, 0x74), (0x22, 0x79), (0x23, 0x77),
  (0x24, 0x73), (0x5B, 0x37), (0x5C, 0x36), (0xA0, 0x38),
  (0xA1, 0x3C), (0xA2, 0x3B), (0xA3, 0x3E), (0xA4, 0x3A),
  (0xA5, 0x3D), (0xBA, 0x29), (0xBB, 0x18), (0xBC, 0x2B),
  (0xBD, 0x1B), (0xBE, 0x2F), (0xBF, 0x2C), (0xC0, 0x32),
  (0xDB, 0x21), (0xDC, 0x2A), (0xDD, 0x1E), (0xDE, 0x27),
  (0x60, 0x52), (0x61, 0x53), (0x62, 0x54), (0x63, 0x55),
  (0x64, 0x56), (0x65, 0x57), (0x66, 0x58), (0x67, 0x59),
  (0x68, 0x5B), (0x69, 0x5C), (0x6A, 0x43), (0x6B, 0x45),
  (0x6D, 0x4E), (0x6E, 0x41), (0x6F, 0x4B)]

/-- The modifier-state update switch inside Injector.InjectKey: Shift
keys toggle 0x01, Control keys 0x02, Alt keys 0x04, Windows/Command keys
0x08; other key codes leave the state alone.  Go s |= m is s ||| m and
s &^= m is Nat.ldiff s m. -/
def updateModifierState (s : Nat) (keyCode : Nat) (pressed : Bool) : Nat :=
  if keyCode = 0x10 ∨ keyCode = 0xA0 ∨ keyCode = 0xA1 then
    if pressed then s ||| 0x01 else Nat.ldiff s 0x01
  else if keyCode = 0x11 ∨ keyCode = 0xA2 ∨ keyCode = 0xA3 then
    if pressed then s ||| 0x02 else Nat.ldiff s 0x02
  else if keyCode = 0x12 ∨ keyCode = 0xA4 ∨ keyCode = 0xA5 then
    if pressed then s ||| 0x04 else Nat.ldiff s 0x04
  else if keyCode = 0x5B ∨ keyCode = 0x5C then
    if pressed then s ||| 0x08 else Nat.ldiff s 0x08
  else s

/-- The synthetic keyboard event posted by the C side: the translated
macOS key code, press/release, and the Go-side modifier state handed to
C.injectKey. -/
structure KeyPost where
  macKey : Nat
  pressed : Bool
  mods : Nat
deriving DecidableEq

/-- Injector.InjectKey: look the Windows key code up in the translation
table; unmapped codes produce an error and no synthetic event; mapped
codes update the modifier bitmask and post an event carrying the
translated code.  The wire modifiers argument is accepted but (in this
version) not used.  Returns (new modifier state, posted event or error).
-/
def InjectKey (s : Nat) (keyCode : Nat) (pressed : Bool) (modifiers : Nat) :
    Nat × Except String KeyPost :=
  match windowsToMacKeyMap.lookup keyCode with
  | none => (s, Except.error "unmapped key code")
  | some mac =>
    let s2 := updateModifierState s keyCode pressed
    (s2, Except.ok { macKey := mac, pressed := pressed, mods := s2 })

/-- Fold a sequence of InjectKey calls, tracking only the modifier
bitmask (the injector field modifierState). -/
def runInjectKeys (s : Nat) (evs : List (Nat × Bool)) : Nat :=
  evs.foldl (fun st e => (InjectKey st e.1 e.2 0).1) s

/-- The Windows VK codes InjectKey treats as modifier keys (Shift,
Control, Alt and Command variants). -/
def isModifierKeyCode (k : Nat) : Bool :=
  k = 0x10 ∨ k = 0xA0 ∨ k = 0xA1 ∨ k = 0x11 ∨ k = 0xA2 ∨ k = 0xA3 ∨
    k = 0x12 ∨ k = 0xA4 ∨ k = 0xA5 ∨ k = 0x5B ∨ k = 0x5C

/-- The modifier bit a key code toggles (0 for non-modifier codes). -/
def modMask (k : Nat) : Nat :=
  if k = 0x10 ∨ k = 0xA0 ∨ k = 0xA1 then 0x01
  else if k = 0x11 ∨ k = 0xA2 ∨ k = 0xA3 then 0x02
  else if k = 0x12 ∨ k = 0xA4 ∨ k = 0xA5 then 0x04
  else if k = 0x5B ∨ k = 0x5C then 0x08
  else 0

/-! ## Agent input gate (cmd main runService, agent branch)

wsClient.OnInput on an Agent drops every event unless USB forwarding is
enabled in the current (last-synced) config and allowInjection is set;
surviving events are dispatched to the matching injector call. -/

/-- The wire input events the agent handler switches on. -/
inductive WireInputEvent where
  | mouseMove (deltaX deltaY : Int)
  | mouseBtn (button : Nat) (pressed : Bool)
  | mouseWheel (wheelDelta : Int)
  | mouseWheelH (wheelDelta : Int)
  | key (keyCode : Nat) (pressed : Bool) (modifiers : Nat)
deriving DecidableEq

/-- The injector call the agent handler makes for a dispatched event. -/
inductive InjectionCall where
  | mouseMove (dx dy : Int)
  | mouseButton (button : Nat) (pressed : Bool)
  | mouseWheel (dy dx : Int)
  | key (keyCode : Nat) (pressed : Bool) (modifiers : Nat)
deriving DecidableEq

/-- The allowInjection state an Agent derives from an observed active
profile: when agent_profile is configured it is (observed profile equals
agent_profile); with no agent_profile configured injection is always
allowed.  This is the update both the periodic detection loop and the
OnSwitch handler apply. -/
def agentAllowInjection (agentProfile observedProfile : String) : Bool :=
  if agentProfile ≠ "" then observedProfile == agentProfile else true

/-- The Agent OnInput handler: drop the event when USB forwarding is
disabled in the last-synced config, drop it when injection is not
allowed, otherwise dispatch to the injector.  none models the silent
drop (no injector call, no error). -/
def agentOnInput (usbForwardingEnabled allowInjection : Bool)
    (ev : WireInputEvent) : Option InjectionCall :=
  if ¬usbForwardingEnabled then none
  else if ¬allowInjection then none
  else
    some (match ev with
      | .mouseMove dx dy => .mouseMove dx dy
      | .mouseBtn b p => .mouseButton b p
      | .mouseWheel d => .mouseWheel d 0
      | .mouseWheelH d => .mouseWheel 0 d
      | .key k p m => .key k p m)

/-! ## Theorems -/

/-- C2: for every UDP packet variant (MouseMove, MouseButton, MouseScroll,
KeyEvent, Register, Heartbeat, Ack) whose fields outside that variant's
payload are at their zero values (and whose fields respect their Go
machine-integer ranges), DecodeUDPPacket (EncodeUDPPacket pkt) succeeds
and returns a packet equal to pkt. -/
theorem udp_encode_decode_roundtrip (pkt : UDPPacket) (h : wfUDPPacket pkt) :
    DecodeUDPPacket (EncodeUDPPacket pkt) = Except.ok pkt := by
  obtain ⟨t, s, ts, dx, dy, b, pr, wd, ax, kc, md⟩ := pkt
  unfold wfUDPPacket isI32 isI64 at h
  simp only at h
  obtain ⟨hseq, ⟨hts1, hts2⟩, hv⟩ := h
  rcases hv with ⟨ht, ⟨hdx1, hdx2⟩, ⟨hdy1, hdy2⟩, h4, h5, h6, h7, h8, h9⟩ |
    ⟨ht, hb, hp, h4, h5, h6, h7, h8, h9⟩ |
    ⟨ht, ⟨hw1, hw2⟩, hax, h4, h5, h6, h7, h8, h9⟩ |
    ⟨ht, hkc, hp2, hmd, h4, h5, h6, h7, h8⟩ |
    ⟨ht, h3, h4, h5, h6, h7, h8, h9, h10⟩
  · subst_vars
    simp only [EncodeUDPPacket, DecodeUDPPacket, be32, be64, be16, UDPPacketMouseMove,
      UDPPacketMouseButton, UDPPacketMouseScroll, UDPPacketKeyEvent, UDPPacketRegister,
      UDPPacketHeartbeat, UDPPacketAck, List.cons_append, List.nil_append,
      Nat.reduceEqDiff, reduceIte, or_self, or_true, true_or, or_false, false_or]
    rw [rd32_be32 _ hseq, rd64_be64 _ (u64ofInt_lt ts), i64_roundtrip ts hts1 hts2,
      rd32_be32 _ (u32ofInt_lt dx), rd32_be32 _ (u32ofInt_lt dy),
      i32_roundtrip dx hdx1 hdx2, i32_roundtrip dy hdy1 hdy2]
  · subst_vars
    simp only [EncodeUDPPacket, DecodeUDPPacket, be32, be64, be16, UDPPacketMouseMove,
      UDPPacketMouseButton, UDPPacketMouseScroll, UDPPacketKeyEvent, UDPPacketRegister,
      UDPPacketHeartbeat, UDPPacketAck, List.cons_append, List.nil_append,
      Nat.reduceEqDiff, reduceIte, or_self, or_true, true_or, or_false, false_or]
    rw [rd32_be32 _ hseq, rd64_be64 _ (u64ofInt_lt ts), i64_roundtrip ts hts1 hts2]
  · subst_vars
    simp only [EncodeUDPPacket, DecodeUDPPacket, be32, be64, be16, UDPPacketMouseMove,
      UDPPacketMouseButton, UDPPacketMouseScroll, UDPPacketKeyEvent, UDPPacketRegister,
      UDPPacketHeartbeat, UDPPacketAck, List.cons_append, List.nil_append,
      Nat.reduceEqDiff, reduceIte, or_self, or_true, true_or, or_false, false_or]
    rw [rd32_be32 _ hseq, rd64_be64 _ (u64ofInt_lt ts), i64_roundtrip ts hts1 hts2,
      rd32_be32 _ (u32ofInt_lt wd), i32_roundtrip wd hw1 hw2]
  · subst_vars
    simp only [EncodeUDPPacket, DecodeUDPPacket, be32, be64, be16, UDPPacketMouseMove,
      UDPPacketMouseButton, UDPPacketMouseScroll, UDPPacketKeyEvent, UDPPacketRegister,
      UDPPacketHeartbeat, UDPPacketAck, List.cons_append, List.nil_append,
      Nat.reduceEqDiff, reduceIte, or_self, or_true, true_or, or_false, false_or]
    rw [rd32_be32 _ hseq, rd64_be64 _ (u64ofInt_lt ts), i64_roundtrip ts hts1 hts2,
      rd16_be16 _ hkc, rd16_be16 _ hmd]
  · rcases ht with ht | ht | ht <;> subst_vars <;>
      simp only [EncodeUDPPacket, DecodeUDPPacket, be32, be64, be16, UDPPacketMouseMove,
        UDPPacketMouseButton, UDPPacketMouseScroll, UDPPacketKeyEvent, UDPPacketRegister,
        UDPPacketHeartbeat, UDPPacketAck, List.cons_append, List.nil_append,
        Nat.reduceEqDiff, reduceIte, or_self, or_true, true_or, or_false, false_or] <;>
      rw [rd32_be32 _ hseq, rd64_be64 _ (u64ofInt_lt ts), i64_roundtrip ts hts1 hts2]

/-- Witness for C2: the round trip evaluated at a concrete KeyEvent
packet. -/
theorem udp_encode_decode_roundtrip_witness :
    wfUDPPacket { ptype := 0x04, seq := 7, timestamp := 123456789,
                  pressed := 1, keyCode := 0x41, modifiers := 0x0001 } ∧
    DecodeUDPPacket (EncodeUDPPacket
        { ptype := 0x04, seq := 7, timestamp := 123456789,
          pressed := 1, keyCode := 0x41, modifiers := 0x0001 }) =
      Except.ok { ptype := 0x04, seq := 7, timestamp := 123456789,
                  pressed := 1, keyCode := 0x41, modifiers := 0x0001 } :=
  ⟨by decide, udp_encode_decode_roundtrip _ (by decide)⟩

lemma filter_broadcast (agents : List String) (hnd : agents.Nodup)
    (a : String) (ha : a ∈ agents) (data : List Nat) (r : Nat) :
    (broadcast agents data r).filter (fun w => w.1 == a) = List.replicate r (a, data) := by
  induction agents with
  | nil => cases ha
  | cons b rest ih =>
    simp only [broadcast, List.flatMap_cons, List.filter_append]
    rcases List.mem_cons.mp ha with rfl | hmem
    · have hnot : a ∉ rest := (List.nodup_cons.mp hnd).1
      have h1 : (List.replicate r (a, data)).filter (fun w => w.1 == a) =
          List.replicate r (a, data) := by
        apply List.filter_eq_self.mpr
        intro x hx
        simp [List.eq_of_mem_replicate hx]
      have h2 : ((rest.flatMap fun x => List.replicate r (x, data)).filter
          (fun w => w.1 == a)) = [] := by
        apply List.filter_eq_nil_iff.mpr
        intro x hx
        obtain ⟨c, hc, hxc⟩ := List.mem_flatMap.mp hx
        have := List.eq_of_mem_replicate hxc
        subst this
        simp only [beq_iff_eq]
        rintro rfl
        exact hnot hc
      rw [h1, h2, List.append_nil]
    · have hb : b ≠ a := by
        rintro rfl
        exact (List.nodup_cons.mp hnd).1 hmem
      have h1 : (List.replicate r (b, data)).filter (fun w => w.1 == a) = [] := by
        apply List.filter_eq_nil_iff.mpr
        intro x hx
        have := List.eq_of_mem_replicate hx
        subst this
        simp only [beq_iff_eq]
        exact hb
      rw [h1, List.nil_append]
      exact ih (List.nodup_cons.mp hnd).2 hmem

/-- C3: for every input event the Host sends over UDP, each registered
agent is written exactly specCopyCount identical datagram copies: 1 for
a mouse move, 2 for a scroll (either axis), 3 for a mouse button or key
event. -/
theorem sendInput_redundancy (agents : List String) (hnd : agents.Nodup)
    (a : String) (ha : a ∈ agents) (eventType : String)
    (het : eventType = "mouse_move" ∨ eventType = "mouse_btn" ∨
      eventType = "mouse_wheel" ∨ eventType = "mouse_wheel_h" ∨ eventType = "key")
    (deltaX deltaY : Int) (button : Nat) (pressed : Bool)
    (keyCode modifiers : Nat) (wheelDelta : Int) (timestamp : Int) (seq : Nat) :
    ∃ data, (SendInput agents eventType deltaX deltaY button pressed keyCode
        modifiers wheelDelta timestamp seq).filter (fun w => w.1 == a) =
      List.replicate (specCopyCount eventType) (a, data) := by
  rcases het with rfl | rfl | rfl | rfl | rfl <;>
    exact ⟨_, by
      simp only [SendInput, sendInputPacket, specCopyCount]
      norm_num
      exact filter_broadcast agents hnd a ha _ _⟩

/-- Witness for C3: a key event sent to one registered agent arrives as
3 identical copies. -/
theorem sendInput_redundancy_witness :
    ∃ data, (SendInput ["192.168.1.20:41000"] "key" 0 0 0 true 0x41 0 0 99 5).filter
        (fun w => w.1 == "192.168.1.20:41000") =
      List.replicate (specCopyCount "key") ("192.168.1.20:41000", data) :=
  sendInput_redundancy ["192.168.1.20:41000"] (by decide) _ (by decide) "key"
    (by decide) 0 0 0 true 0x41 0 0 99 5

/-- Helper: the last element of a cons list, as Option.or of the tail's
last and the head. -/
lemma getLast?_cons_or {α : Type} (a : α) (l : List α) :
    (a :: l).getLast? = Option.or l.getLast? (some a) := by
  cases l with
  | nil => rfl
  | cons b m =>
    rw [List.getLast?_cons_cons]
    cases h : (b :: m).getLast? with
    | none => exact absurd (List.getLast?_eq_none_iff.mp h) (by simp)
    | some x => rfl

/-- C1: on an Agent with a configured agent_profile, a received input
event is injected iff usb_forwarding_enabled is true in the last-synced
config AND the last observed active profile equals agent_profile; in
every other case the event is silently dropped (agentOnInput is none: no
injection call). -/
theorem agent_input_gate (usb : Bool) (agentProfile observedProfile : String)
    (hap : agentProfile ≠ "") (ev : WireInputEvent) :
    ((agentOnInput usb (agentAllowInjection agentProfile observedProfile) ev).isSome
      = true) ↔ (usb = true ∧ observedProfile = agentProfile) := by
  unfold agentOnInput agentAllowInjection
  rw [if_pos hap]
  cases usb <;> by_cases ho : observedProfile = agentProfile <;> cases ev <;>
    simp [ho]

/-- Witness for C1: a key event with forwarding enabled and the profile
matching is injected. -/
theorem agent_input_gate_witness :
    ((agentOnInput true (agentAllowInjection "Mac" "Mac")
        (WireInputEvent.key 0x41 true 0)).isSome = true) ↔
      (true = true ∧ "Mac" = "Mac") :=
  agent_input_gate true "Mac" "Mac" (by decide) (WireInputEvent.key 0x41 true 0)

/-- C4 counterexample: an Ack packet is NOT exempt from dedup.  After a
MouseMove with seq 5 is received (and dispatched), an Ack with the same
seq 5 is dropped by the dedup check and never reaches dispatch,
contradicting the claim that Ack is always dispatched regardless of
previously seen seq values. -/
theorem ack_dedup_counterexample :
    (readLoopStep newSeqDedup
        (EncodeUDPPacket
          { ptype := UDPPacketMouseMove, seq := 5, timestamp := 0, deltaX := 1 })).2.isSome
      = true ∧
    (readLoopStep
        (readLoopStep newSeqDedup
          (EncodeUDPPacket
            { ptype := UDPPacketMouseMove, seq := 5, timestamp := 0, deltaX := 1 })).1
        (EncodeUDPPacket { ptype := UDPPacketAck, seq := 5, timestamp := 0 })).2 = none := by
  decide

/-- C4 (amended): in the Agent's UDP receive loop only Register and
Heartbeat are exempt from sequence-number dedup; every other decoded
packet type, the four input-event types AND Ack, reaches dispatch iff
its seq is not a recently seen duplicate. -/
theorem readLoop_dedup_exemptions (d : SeqDedup) (data : List Nat) (pkt : UDPPacket)
    (h : DecodeUDPPacket data = .ok pkt) :
    ((pkt.ptype = UDPPacketRegister ∨ pkt.ptype = UDPPacketHeartbeat) →
      (readLoopStep d data).2 = some pkt) ∧
    ((pkt.ptype ≠ UDPPacketRegister ∧ pkt.ptype ≠ UDPPacketHeartbeat) →
      ((readLoopStep d data).2 = some pkt ↔ (isDuplicate d pkt.seq).1 = false)) := by
  constructor
  · intro hor
    have hneg : ¬(pkt.ptype ≠ UDPPacketRegister ∧ pkt.ptype ≠ UDPPacketHeartbeat) := by
      tauto
    simp [readLoopStep, h, hneg]
  · intro hand
    simp only [readLoopStep, h, if_pos hand]
    by_cases hd : (isDuplicate d pkt.seq).1
    · simp [hd]
    · simp [hd]

/-- Witness for C4 (amended): a Register packet reaches dispatch on a
fresh dedup state. -/
theorem readLoop_dedup_exemptions_witness :
    (readLoopStep newSeqDedup
        (EncodeUDPPacket { ptype := UDPPacketRegister, seq := 5, timestamp := 0 })).2 =
      some { ptype := UDPPacketRegister, seq := 5, timestamp := 0 } :=
  (readLoop_dedup_exemptions newSeqDedup _ _ (by rfl)).1 (Or.inl rfl)

lemma zero_mem_seen_isDuplicate (d : SeqDedup) (s : Nat) (h : 0 ∈ d.seen) :
    0 ∈ (isDuplicate d s).2.seen := by
  by_cases hs : s ∈ d.seen
  · simp [isDuplicate, hs, h]
  · simp only [isDuplicate, if_neg hs, List.mem_cons]
    right
    split
    · exact (List.mem_erase_of_ne (by omega)).mpr h
    · exact h

lemma zero_mem_after_zero (d : SeqDedup) : 0 ∈ (isDuplicate d 0).2.seen := by
  by_cases hs : (0 : Nat) ∈ d.seen
  · simp [isDuplicate, hs]
  · simp [isDuplicate, hs]

lemma zero_mem_runDedup (d : SeqDedup) (seqs : List Nat) (h : 0 ∈ d.seen) :
    0 ∈ (runDedup d seqs).seen := by
  induction seqs generalizing d with
  | nil => exact h
  | cons s rest ih => exact ih _ (zero_mem_seen_isDuplicate d s h)

lemma isDuplicate_of_mem (d : SeqDedup) (s : Nat) (h : s ∈ d.seen) :
    (isDuplicate d s).1 = true := by
  simp [isDuplicate, h]

/-- C10: sequence number 0 is sticky.  Ring eviction skips zero-valued
slots, so once isDuplicate has been called with seq 0 the value 0 stays
in the seen-set forever: after any further insertions, a later
isDuplicate call with seq 0 reports true. -/
theorem zero_seq_sticky (d : SeqDedup) (seqs : List Nat) :
    (isDuplicate (runDedup (isDuplicate d 0).2 seqs) 0).1 = true :=
  isDuplicate_of_mem _ _ (zero_mem_runDedup _ seqs (zero_mem_after_zero d))

/-- Helper: the local DDC loop attempts exactly the monitor_inputs
entries whose monitor is detected, and returns the last error of those
attempts. -/
lemma localSwitchLoop_spec (env : SwitchEnv) (inputs : List (String × Nat)) :
    localSwitchLoop env inputs =
      (inputs.filter (fun e => decide (e.1 ∈ env.activeIDs)),
       ((inputs.filter (fun e => decide (e.1 ∈ env.activeIDs))).filterMap
         (fun e => env.setInputSource e.1 e.2)).getLast?) := by
  have go : ∀ (inputs : List (String × Nat)) (acc : List (String × Nat))
      (accErr : Option String),
      inputs.foldl
        (fun acc entry =>
          if entry.1 ∈ env.activeIDs then
            (acc.1 ++ [entry],
              match env.setInputSource entry.1 entry.2 with
              | some e => some e
              | none => acc.2)
          else acc)
        (acc, accErr) =
      (acc ++ inputs.filter (fun e => decide (e.1 ∈ env.activeIDs)),
       Option.or
         ((inputs.filter (fun e => decide (e.1 ∈ env.activeIDs))).filterMap
           (fun e => env.setInputSource e.1 e.2)).getLast? accErr) := by
    intro inputs
    induction inputs with
    | nil => intro acc accErr; simp
    | cons e rest ih =>
      intro acc accErr
      by_cases he : e.1 ∈ env.activeIDs
      · cases hw : env.setInputSource e.1 e.2 with
        | none =>
          simp only [List.foldl_cons, if_pos he, hw]
          rw [ih]
          simp [he, hw, List.filter_cons]
        | some er =>
          simp only [List.foldl_cons, if_pos he, hw]
          rw [ih]
          simp only [List.filter_cons, he, decide_True, if_pos, List.filterMap_cons, hw]
          rw [getLast?_cons_or]
          cases hlast : ((rest.filter (fun e => decide (e.1 ∈ env.activeIDs))).filterMap
              (fun e => env.setInputSource e.1 e.2)).getLast? <;>
            simp [List.append_assoc]
      · simp only [List.foldl_cons, if_neg he]
        rw [ih]
        simp [he, List.filter_cons]
  unfold localSwitchLoop
  rw [go inputs [] none]
  simp

/-- C5: when a profile is applied locally (switch_mode local, both or
empty, and the agent-forwarding branch not taken), the VCP 0x60 writes
attempted are exactly the monitor_inputs entries whose monitor ID is
detected on this machine (with their mapped input codes, in order);
entries for absent monitors are skipped and contribute no error; and
the returned error is the last failing attempted write (none when all
succeed). -/
theorem switch_local_monitor_writes (env : SwitchEnv) (profile : Profile)
    (profileName : String) (allowForward : Bool)
    (hfw : ¬(allowForward ∧ env.role = "agent" ∧ env.coordinatorAddr ≠ ""))
    (hmode : profile.switchMode = "local" ∨ profile.switchMode = "both" ∨
      profile.switchMode = "") :
    (switchToProfileInternal env profile profileName allowForward).attempts =
      profile.monitorInputs.filter (fun e => decide (e.1 ∈ env.activeIDs)) ∧
    (switchToProfileInternal env profile profileName allowForward).result =
      ((switchToProfileInternal env profile profileName allowForward).attempts.filterMap
        (fun e => env.setInputSource e.1 e.2)).getLast? := by
  unfold switchToProfileInternal
  rw [if_neg hfw]
  rcases hmode with hm | hm | hm <;>
    simp [hm, localSwitchLoop_spec]

/-- Witness for C5: monitors A and B are present (both writes fail), C
is absent; the attempts are exactly A and B, and the returned error is
the last failure (B). -/
theorem switch_local_monitor_writes_witness :
    (switchToProfileInternal
        { role := "host", coordinatorAddr := "", activeIDs := ["A", "B"],
          setInputSource := fun m _ =>
            if m = "A" then some "write to A failed"
            else if m = "B" then some "write to B failed" else none }
        { name := "P", switchMode := "both",
          monitorInputs := [("A", 17), ("C", 15), ("B", 16)] } "P" true).attempts =
      [("A", 17), ("C", 15), ("B", 16)].filter
        (fun e => decide (e.1 ∈ ["A", "B"])) ∧
    (switchToProfileInternal
        { role := "host", coordinatorAddr := "", activeIDs := ["A", "B"],
          setInputSource := fun m _ =>
            if m = "A" then some "write to A failed"
            else if m = "B" then some "write to B failed" else none }
        { name := "P", switchMode := "both",
          monitorInputs := [("A", 17), ("C", 15), ("B", 16)] } "P" true).result =
      ((switchToProfileInternal
        { role := "host", coordinatorAddr := "", activeIDs := ["A", "B"],
          setInputSource := fun m _ =>
            if m = "A" then some "write to A failed"
            else if m = "B" then some "write to B failed" else none }
        { name := "P", switchMode := "both",
          monitorInputs := [("A", 17), ("C", 15), ("B", 16)] } "P" true).attempts.filterMap
        (fun e =>
          (fun m _ =>
            if m = "A" then some "write to A failed"
            else if m = "B" then some "write to B failed"
            else none : String → Nat → Option String) e.1 e.2)).getLast? :=
  switch_local_monitor_writes _ _ "P" true (by decide) (by decide)

/-- C6 counterexample: a switch request for a profile absent from the
config is rejected by POST /api/switch with status 500, which is a 5xx,
not the 4xx the claim states. -/
theorem switch_missing_profile_counterexample :
    (handleSwitch
        { role := "host", coordinatorAddr := "", activeIDs := [],
          setInputSource := fun _ _ => none }
        [{ name := "PC1" }] "POST" "Mac" "").status = 500 ∧
    ¬(400 ≤ (handleSwitch
        { role := "host", coordinatorAddr := "", activeIDs := [],
          setInputSource := fun _ _ => none }
        [{ name := "PC1" }] "POST" "Mac" "").status ∧
      (handleSwitch
        { role := "host", coordinatorAddr := "", activeIDs := [],
          setInputSource := fun _ _ => none }
        [{ name := "PC1" }] "POST" "Mac" "").status < 500) := by
  decide

/-- C6 (amended): a switch request naming a profile absent from the
config fails: SwitchToProfile and SwitchLocalOnly return an error with
no monitor write attempted, and POST /api/switch rejects the request
with status 500 (Internal Server Error, a 5xx), for both propagate
values. -/
theorem switch_missing_profile (env : SwitchEnv) (profiles : List Profile)
    (name : String) (hnf : GetProfile profiles name = none) (hne : name ≠ "") :
    (SwitchToProfile env profiles name).result.isSome = true ∧
    (SwitchToProfile env profiles name).attempts = [] ∧
    (SwitchLocalOnly env profiles name).result.isSome = true ∧
    (SwitchLocalOnly env profiles name).attempts = [] ∧
    (handleSwitch env profiles "POST" name "").status = 500 ∧
    (handleSwitch env profiles "POST" name "false").status = 500 := by
  have h1 : SwitchToProfile env profiles name =
      failedSwitch ("profile not found: " ++ name) := by
    unfold SwitchToProfile; rw [hnf]
  have h2 : SwitchLocalOnly env profiles name =
      failedSwitch ("profile not found: " ++ name) := by
    unfold SwitchLocalOnly; rw [hnf]
  refine ⟨by simp [h1, failedSwitch], by simp [h1, failedSwitch],
    by simp [h2, failedSwitch], by simp [h2, failedSwitch], ?_, ?_⟩
  · unfold handleSwitch
    rw [if_neg (by simp), if_neg hne]
    simp [h1, failedSwitch]
  · unfold handleSwitch
    rw [if_neg (by simp), if_neg hne]
    simp [h2, failedSwitch]

/-- Witness for C6 (amended): the config has only profile PC1 and the
request names Mac. -/
theorem switch_missing_profile_witness :
    ((SwitchToProfile
        { role := "host", coordinatorAddr := "", activeIDs := [],
          setInputSource := fun _ _ => none }
        [{ name := "PC1" }] "Mac").result.isSome = true ∧
      (SwitchToProfile
        { role := "host", coordinatorAddr := "", activeIDs := [],
          setInputSource := fun _ _ => none }
        [{ name := "PC1" }] "Mac").attempts = [] ∧
      (SwitchLocalOnly
        { role := "host", coordinatorAddr := "", activeIDs := [],
          setInputSource := fun _ _ => none }
        [{ name := "PC1" }] "Mac").result.isSome = true ∧
      (SwitchLocalOnly
        { role := "host", coordinatorAddr := "", activeIDs := [],
          setInputSource := fun _ _ => none }
        [{ name := "PC1" }] "Mac").attempts = [] ∧
      (handleSwitch
        { role := "host", coordinatorAddr := "", activeIDs := [],
          setInputSource := fun _ _ => none }
        [{ name := "PC1" }] "POST" "Mac" "").status = 500 ∧
      (handleSwitch
        { role := "host", coordinatorAddr := "", activeIDs := [],
          setInputSource := fun _ _ => none }
        [{ name := "PC1" }] "POST" "Mac" "false").status = 500) :=
  switch_missing_profile _ _ "Mac" (by decide) (by decide)

/-- C7 counterexample: a Host switch with switch_mode both completes and
fires onSwitch, but the control-channel broadcast message built by
BroadcastSwitch carries propagate = true, not the propagate = false the
claim states. -/
theorem broadcast_switch_counterexample :
    (switchToProfileInternal
        { role := "host", coordinatorAddr := "", activeIDs := [],
          setInputSource := fun _ _ => none }
        { name := "Mac", switchMode := "both" } "Mac" true).onSwitchFired = some "Mac" ∧
    ¬((hostOnSwitch "Mac").payload.propagate = false) := by
  decide

/-- C7 (amended): the switch message a Host broadcasts to connected
Agents on the control channel (via the onSwitch wiring and
WSManager.BroadcastSwitch) has type switch, origin "host" and
propagate = true. -/
theorem broadcast_switch_propagate (profileName : String) :
    (hostOnSwitch profileName).msgType = "switch" ∧
    (hostOnSwitch profileName).payload.origin = "host" ∧
    (hostOnSwitch profileName).payload.propagate = true :=
  ⟨rfl, rfl, rfl⟩

/-- C8: InjectKey rejects every key code absent from the translation
table with an error, posting no synthetic event and leaving the modifier
state unchanged; for every mapped key code it posts an event carrying
the translated macOS key code. -/
theorem injectKey_translation (s : Nat) (k : Nat) (p : Bool) (m : Nat) :
    (windowsToMacKeyMap.lookup k = none →
      (InjectKey s k p m).2 = Except.error "unmapped key code" ∧
      (InjectKey s k p m).1 = s) ∧
    (∀ mac, windowsToMacKeyMap.lookup k = some mac →
      ∃ post, (InjectKey s k p m).2 = Except.ok post ∧ post.macKey = mac) := by
  refine ⟨fun h => by simp [InjectKey, h], fun mac h =>
    ⟨{ macKey := mac, pressed := p, mods := updateModifierState s k p },
      by simp [InjectKey, h], rfl⟩⟩

/-- Witness for C8: VK 0xE7 (unmapped) errors; VK 0x41 (A) is translated
to macOS key code 0x00. -/
theorem injectKey_translation_witness :
    ((InjectKey 0 0xE7 true 0).2 = Except.error "unmapped key code" ∧
      (InjectKey 0 0xE7 true 0).1 = 0) ∧
    (∃ post, (InjectKey 0 0x41 true 0).2 = Except.ok post ∧ post.macKey = 0x00) :=
  ⟨(injectKey_translation 0 0xE7 true 0).1 (by rfl),
    (injectKey_translation 0 0x41 true 0).2 0x00 (by rfl)⟩

lemma modMask_lookup (k : Nat) (h : modMask k ≠ 0) :
    (windowsToMacKeyMap.lookup k).isSome = true := by
  unfold modMask at h
  split_ifs at h with h1 h2 h3 h4
  · rcases h1 with rfl | rfl | rfl <;> rfl
  · rcases h2 with rfl | rfl | rfl <;> rfl
  · rcases h3 with rfl | rfl | rfl <;> rfl
  · rcases h4 with rfl | rfl <;> rfl
  · exact absurd rfl h

/-- Helper: per-bit effect of one InjectKey call on the modifier state:
a bit of the key's modifier mask is set to the pressed flag, every other
bit is untouched (also for unmapped and non-modifier keys). -/
lemma injectStep_testBit (s k : Nat) (p : Bool) (i : Nat) :
    ((InjectKey s k p 0).1).testBit i =
      if (modMask k).testBit i then p else s.testBit i := by
  cases hl : windowsToMacKeyMap.lookup k with
  | none =>
    have hm : modMask k = 0 := by
      by_contra hne
      have := modMask_lookup k hne
      rw [hl] at this
      simp at this
    simp [InjectKey, hl, hm, Nat.zero_testBit]
  | some mac =>
    simp only [InjectKey, hl]
    unfold updateModifierState modMask
    split_ifs with h1 h2 h3 h4 <;> cases p <;>
      simp_all [Nat.testBit_lor, Nat.testBit_ldiff, Nat.zero_testBit]

/-- Helper: a bit of the modifier state after a sequence of InjectKey
calls equals the pressed flag of the last event whose key affects that
bit (or the initial bit when no event affects it). -/
lemma runInjectKeys_testBit (evs : List (Nat × Bool)) (s : Nat) (i : Nat) :
    (runInjectKeys s evs).testBit i =
      match (evs.filter fun e => (modMask e.1).testBit i).getLast? with
      | none => s.testBit i
      | some e => e.2 := by
  induction evs generalizing s with
  | nil => rfl
  | cons e rest ih =>
    show (runInjectKeys ((InjectKey s e.1 e.2 0).1) rest).testBit i = _
    rw [ih]
    by_cases hp : (modMask e.1).testBit i = true
    · rw [List.filter_cons_of_pos (by simpa using hp)]
      rw [getLast?_cons_or]
      cases hlast : (rest.filter fun x => (modMask x.1).testBit i).getLast? with
      | none => simp [hlast, Option.or, injectStep_testBit, hp]
      | some x => simp [hlast, Option.or]
    · rw [List.filter_cons_of_neg (by simpa using hp)]
      cases hlast : (rest.filter fun x => (modMask x.1).testBit i).getLast? with
      | none => simp [hlast, injectStep_testBit, hp]
      | some x => simp [hlast]

/-- Helper: when the last p-survivor of a list also satisfies q, and q
implies p, it is also the last q-survivor. -/
lemma getLast?_filter_strengthen {α : Type} (l : List α) (p q : α → Bool)
    (hq : ∀ x, q x = true → p x = true) (e : α)
    (hl : (l.filter p).getLast? = some e) (he : q e = true) :
    (l.filter q).getLast? = some e := by
  induction l using List.reverseRecOn with
  | nil => simp at hl
  | append_singleton m b ih =>
    rw [List.filter_append] at hl ⊢
    by_cases hpb : p b = true
    · have hb : List.filter p [b] = [b] := by simp [hpb]
      rw [hb, List.getLast?_concat] at hl
      have hbe : b = e := by injection hl
      subst hbe
      have hqb : List.filter q [b] = [b] := by simp [he]
      rw [hqb, List.getLast?_concat]
    · have hqb : q b ≠ true := fun hx => hpb (hq b hx)
      have h1 : List.filter p [b] = [] := by simp [List.filter_cons]; simpa using hpb
      have h2 : List.filter q [b] = [] := by simp [List.filter_cons]; simpa using hqb
      rw [h1, List.append_nil] at hl
      rw [h2, List.append_nil]
      exact ih hl

/-- C9: starting from the all-zero modifier bitmask, after any sequence
of InjectKey calls for modifier keys (Shift, Control, Alt, Command
variants) in which the final event for every key code appearing in the
sequence is a release, the injector's modifier bitmask is 0. -/
theorem modifier_balance (evs : List (Nat × Bool))
    (hmod : ∀ e ∈ evs, isModifierKeyCode e.1 = true)
    (hrel : ∀ k ∈ evs.map Prod.fst,
      ((evs.filter fun x => x.1 == k).getLast?.map Prod.snd) ≠ some true) :
    runInjectKeys 0 evs = 0 := by
  apply Nat.eq_of_testBit_eq
  intro i
  rw [runInjectKeys_testBit, Nat.zero_testBit]
  cases hlast : (evs.filter fun e => (modMask e.1).testBit i).getLast? with
  | none => simp [Nat.zero_testBit]
  | some e =>
    show e.2 = false
    have hmem : e ∈ evs.filter fun x => (modMask x.1).testBit i :=
      List.mem_of_mem_getLast? hlast
    have hel : e ∈ evs := List.mem_of_mem_filter hmem
    have hP : (modMask e.1).testBit i = true := (List.mem_filter.mp hmem).2
    have hq : ∀ x : Nat × Bool, (x.1 == e.1) = true →
        ((modMask x.1).testBit i) = true := by
      intro x hx
      rw [beq_iff_eq] at hx
      rw [hx]
      exact hP
    have hlast2 : (evs.filter fun x => x.1 == e.1).getLast? = some e :=
      getLast?_filter_strengthen evs _ _ hq e hlast (by simp)
    have hk := hrel e.1 (List.mem_map.mpr ⟨e, hel, rfl⟩)
    rw [hlast2] at hk
    cases he2 : e.2
    · rfl
    · exfalso
      apply hk
      simp [he2]

/-- Witness for C9: press left Shift and left Control (VK 0x10, 0xA2),
release both; the bitmask returns to 0. -/
theorem modifier_balance_witness :
    runInjectKeys 0 [(0x10, true), (0xA2, true), (0x10, false), (0xA2, false)] = 0 :=
  modifier_balance _ (by decide) (by decide)

end VKVM
